import Mathlib

/-!
Verification of the spark Go client library's pagination / request engine.

The definitions below are a shallow embedding of the repository's code:

* `scanLink`, `pagingAux`, `getRequestWithPaging` embed the paginated
  fetch loop of `api.go` (`getRequestWithPaging`, lines 88-175).
* `request` embeds the single-request status handling of `api.go`
  (`request`, lines 18-40).
* `buildParams` embeds the per-iteration query-parameter construction
  (`api.go`, lines 101-114).
* The `List*` functions embed the decode-and-merge logic of the four
  list accessors (`room.go`, and the webhook/people/message files).
* `client`, `New`, `SetMaxPerPage` embed the client configuration.

The HTTP transport is abstracted as an oracle `Nat → RoundTrip` giving
the outcome of each round trip in order, exactly as the repository's
mock transport (`mockHTTPClient`) does in its tests.  Go `int` is
modeled as `Int` (no overflow is relevant to any claim), Go byte
strings as `String` (all inputs involved are ASCII).
-/

namespace Spark

/-- One HTTP response as the paging loop sees it: numeric status code,
the status line text (Go's `res.Status`), the fully read body, and the
values of the `Link` header (`[]` when the header is absent). -/
structure PageResponse where
  status : Nat
  statusText : String
  body : String
  links : List String
  deriving DecidableEq

/-- Outcome of handing one built request to the transport:
`httpCli.Do` fails, reading the body fails, or a response is obtained
(with its body fully read). -/
inductive DoOutcome where
  | doFail (msg : String)
  | readFail (msg : String)
  | response (r : PageResponse)
  deriving DecidableEq

/-- Outcome of one round trip of the paging loop: `http.NewRequest`
fails on the current URL, or the request is handed to the transport. -/
inductive RoundTrip where
  | buildFail (msg : String)
  | transport (d : DoOutcome)
  deriving DecidableEq

/-- Errors produced by the request layer, kept structured so that what
each error captures is visible (the Go code formats them with
`fmt.Errorf`; only the captured data matters to the claims). -/
inductive FetchError where
  | buildErr (msg : String)
  | doErr (msg : String)
  | readErr (msg : String)
  | statusErr (code : Nat) (text : String)
  deriving DecidableEq

/-- Result of the header-scanning step of the paging loop
(`api.go` lines 152-172). -/
inductive ScanResult where
  | panic
  | found (uri : String)
  | notFound
  deriving DecidableEq

/-- Splits a character sequence around each leftmost occurrence of the
two-character separator `"; "`, keeping empty fields: the semantics of
Go's `strings.Split(l, "; ")` (the separator used at `api.go` line
158), written as a structural recursion so it evaluates in the kernel. -/
def splitSemiSpace : List Char → List (List Char)
  | ';' :: ' ' :: rest => [] :: splitSemiSpace rest
  | c :: rest =>
    match splitSemiSpace rest with
    | [] => [[c]]
    | f :: fs => (c :: f) :: fs
  | [] => [[]]

/-- Embeds the `Link`-header scan of `getRequestWithPaging`
(`api.go` lines 152-172).  The Go code inspects only the first value
of the header (the inner loop ends in an unconditional
`break headers`), splits it on `"; "`, and accesses `spl[1]`
unguarded: when the split yields fewer than two parts this is an
index-out-of-range panic, modeled by `ScanResult.panic`.  When the
relation matches, `spl[0][1:len(spl[0])-1]` is taken, which likewise
panics when `spl[0]` has fewer than two bytes. -/
def scanLink (links : List String) : ScanResult :=
  match links with
  | [] => .notFound
  | l :: _ =>
    match splitSemiSpace l.data with
    | s0 :: s1 :: _ =>
      if s1 = "rel=\"next\"".data then
        if s0.length < 2 then .panic
        else .found (String.mk ((s0.drop 1).dropLast))
      else .notFound
    | _ => .panic

/-- Result of running the paging loop: normal return (`return ret, nil`),
return with an error (`return ret, err`), a runtime panic, or fuel
exhaustion (the Go loop is still running after `fuel` iterations).
`calls` counts the round trips begun. -/
inductive FetchResult where
  | ok (pages : List String) (calls : Nat)
  | fail (pages : List String) (calls : Nat) (e : FetchError)
  | panicked (calls : Nat)
  | outOfFuel (pages : List String) (calls : Nat)
  deriving DecidableEq

/-- The loop of `getRequestWithPaging` (`api.go` lines 95-173),
fuel-indexed.  `n` is the number of round trips already begun (it also
indexes the transport oracle), `max` the remaining budget, `acc` the
pages accumulated so far.  In the source the decrement
`max -= c.pageMax` (line 121) happens between building the request and
invoking the transport; since `max` is only read again at the loop
head, passing `max - pageMax` into the recursive call is observationally
identical. -/
def pagingAux (oracle : Nat → RoundTrip) (pageMax : Int) (all : Bool) :
    Nat → Nat → Int → List String → FetchResult
  | 0, n, max, acc =>
    if all = true ∨ max > 0 then .outOfFuel acc n else .ok acc n
  | fuel + 1, n, max, acc =>
    if all = true ∨ max > 0 then
      match oracle n with
      | .buildFail e => .fail acc (n + 1) (.buildErr e)
      | .transport d =>
        match d with
        | .doFail e => .fail acc (n + 1) (.doErr e)
        | .readFail e => .fail acc (n + 1) (.readErr e)
        | .response r =>
          if r.status ≠ 200 ∧ r.status ≠ 204 then
            .fail acc (n + 1) (.statusErr r.status r.statusText)
          else
            match scanLink r.links with
            | .panic => .panicked (n + 1)
            | .notFound => .ok (acc ++ [r.body]) (n + 1)
            | .found _ =>
              pagingAux oracle pageMax all fuel (n + 1) (max - pageMax)
                (acc ++ [r.body])
    else .ok acc n

/-- Embeds `getRequestWithPaging` (`api.go` lines 88-175): `all` is set
exactly when the caller max is `0`. -/
def getRequestWithPaging (oracle : Nat → RoundTrip) (pageMax max : Int)
    (fuel : Nat) : FetchResult :=
  pagingAux oracle pageMax (max == 0) fuel 0 max []

/-- Embeds the response handling of `request` (`api.go` lines 18-40)
given the transport outcome for the single built request.  Note the
status error captures the response body (`string(bs)`), unlike the
paging loop, which captures `res.Status`. -/
def request (d : DoOutcome) : Except FetchError String :=
  match d with
  | .doFail e => .error (.doErr e)
  | .readFail e => .error (.readErr e)
  | .response r =>
    if r.status ≠ 200 ∧ r.status ≠ 204 then
      .error (.statusErr r.status r.body)
    else .ok r.body

/-! ## Query-parameter construction (api.go lines 101-114) -/

/-- A query-parameter multimap, the per-key view of Go's `url.Values`
(a map from key to list of values). -/
def Params : Type := String → List String

/-- Embeds the merge step `params.Add(k, v)` iterated over `uv`
(`api.go` lines 102-106, identically `getRequest` lines 48-53):
`Add` appends, so the values already present in the URL keep their
place and the caller-supplied values follow them. -/
def addValues (params uv : Params) : Params :=
  fun k => params k ++ uv k

/-- Embeds the unconditional overwrite `params["max"] = []string{v}`
(`api.go` lines 111 and 113). -/
def setMax (params : Params) (v : String) : Params :=
  fun k => if k = "max" then [v] else params k

/-- Embeds the whole per-iteration parameter construction of the paging
loop (`api.go` lines 101-114): merge the caller's values into those
already in the URL, then force-set `"max"` to the page ceiling when
unbounded or when remaining exceeds the ceiling, else to remaining. -/
def buildParams (urlParams uv : Params) (all : Bool) (max pageMax : Int) :
    Params :=
  setMax (addValues urlParams uv)
    (if all = true ∨ max > pageMax then toString pageMax else toString max)

/-! ## List accessors: decode-and-merge plumbing

Each `List*` function below embeds the body of the corresponding Go
accessor, starting from the pair `(resp, reqErr)` that
`getRequestWithPaging` returned to it.  `json.Unmarshal` into the list
envelope is the external decoder, abstracted as
`decode : String → Except String (List α)`; on a decode error the Go
envelope variable keeps its zero value, i.e. contributes no items. -/

/-- Errors a list accessor returns to its caller. -/
inductive ListCallError where
  | validation (msg : String)
  | fetch (e : FetchError)
  | combined (req : Option FetchError) (json : Option String)
  deriving DecidableEq

/-- The decode error of an `Except`, `none` on success (Go's `jsonErr`
variable, which is `nil` on success). -/
def jsonErrOf (d : Except String (List α)) : Option String :=
  match d with
  | .error e => some e
  | .ok _ => none

/-- The decoded items of an `Except`, `[]` on failure (the zero-value
envelope left behind by a failed `json.Unmarshal`). -/
def itemsOf (d : Except String (List α)) : List α :=
  match d with
  | .ok l => l
  | .error _ => []

/-- The page loop of `ListRooms` (`room.go` lines 133-141): on the
first page that fails to decode, return what was flattened so far with
the combined `"%v && %v"` error; after the last page return
`rooms, nil` — the request error is not returned here. -/
def listRoomsLoop (reqErr : Option FetchError)
    (decode : String → Except String (List α)) :
    List String → List α → List α × Option ListCallError
  | [], acc => (acc, none)
  | r :: rest, acc =>
    match decode r with
    | .error jsonErr => (acc, some (.combined reqErr (some jsonErr)))
    | .ok items => listRoomsLoop reqErr decode rest (acc ++ items)

/-- Embeds `ListRooms` (`room.go` lines 127-142) given the result of
its `getRequestWithPaging` call. -/
def ListRooms (resp : List String) (reqErr : Option FetchError)
    (decode : String → Except String (List α)) :
    List α × Option ListCallError :=
  if reqErr.isSome ∧ resp = [] then ([], reqErr.map .fetch)
  else listRoomsLoop reqErr decode resp []

/-- The page loop of `ListWebhooks` (webhook file lines 139-147):
identical to the rooms loop except that after the last page it returns
`webhooks, reqErr`. -/
def listWebhooksLoop (reqErr : Option FetchError)
    (decode : String → Except String (List α)) :
    List String → List α → List α × Option ListCallError
  | [], acc => (acc, reqErr.map .fetch)
  | r :: rest, acc =>
    match decode r with
    | .error jsonErr => (acc, some (.combined reqErr (some jsonErr)))
    | .ok items => listWebhooksLoop reqErr decode rest (acc ++ items)

/-- Embeds `ListWebhooks` (webhook file lines 133-148) given the result
of its `getRequestWithPaging` call. -/
def ListWebhooks (resp : List String) (reqErr : Option FetchError)
    (decode : String → Except String (List α)) :
    List α × Option ListCallError :=
  if reqErr.isSome ∧ resp = [] then ([], reqErr.map .fetch)
  else listWebhooksLoop reqErr decode resp []

/-- The page loop of `ListPeople` (people file lines 124-131): same
shape as the rooms loop, ending in `return people, nil`. -/
def listPeopleLoop (reqErr : Option FetchError)
    (decode : String → Except String (List α)) :
    List String → List α → List α × Option ListCallError
  | [], acc => (acc, none)
  | r :: rest, acc =>
    match decode r with
    | .error jsonErr => (acc, some (.combined reqErr (some jsonErr)))
    | .ok items => listPeopleLoop reqErr decode rest (acc ++ items)

/-- Embeds `ListPeople` (people file lines 118-133) given the result of
its `getRequestWithPaging` call. -/
def ListPeople (resp : List String) (reqErr : Option FetchError)
    (decode : String → Except String (List α)) :
    List α × Option ListCallError :=
  if reqErr.isSome ∧ resp = [] then ([], reqErr.map .fetch)
  else listPeopleLoop reqErr decode resp []

/-- The page loop of `ListMessages` (message file lines 100-107).  The
source's `if` tests `reqErr != nil` — not `jsonErr != nil` — so with a
pending request error it returns before appending the first page's
items, and with no request error a decode failure is silently dropped
and the loop keeps going. -/
def listMessagesLoop (reqErr : Option FetchError)
    (decode : String → Except String (List α)) :
    List String → List α → List α × Option ListCallError
  | [], acc => (acc, reqErr.map .fetch)
  | r :: rest, acc =>
    let d := decode r
    if reqErr.isSome then (acc, some (.combined reqErr (jsonErrOf d)))
    else listMessagesLoop reqErr decode rest (acc ++ itemsOf d)

/-- Embeds `ListMessages` (message file lines 90-109) given the result
of its `getRequestWithPaging` call; the `roomID` required-field check
comes first. -/
def ListMessages (roomID : String) (resp : List String)
    (reqErr : Option FetchError)
    (decode : String → Except String (List α)) :
    List α × Option ListCallError :=
  if roomID = "" then ([], some (.validation "no room ID specified"))
  else if reqErr.isSome ∧ resp = [] then ([], reqErr.map .fetch)
  else listMessagesLoop reqErr decode resp []

/-! ## Client configuration (client file lines 180-206) -/

/-- The client configuration struct (`type client struct`). -/
structure client where
  token : String
  pageMax : Int
  deriving DecidableEq

/-- Embeds `New` (client file lines 185-190): fixed default page
ceiling of 50. -/
def New (token : String) : client :=
  { token := token, pageMax := 50 }

/-- Embeds `SetMaxPerPage` (client file lines 201-206): builds a copy
of the calling client with the new max; the receiver is left untouched
(the Go method writes no field of `c`), which the embedding reflects by
being a pure function of `c`. -/
def SetMaxPerPage (c : client) (max : Int) : client :=
  { token := c.token, pageMax := max }

/-! ## Resource accessors: validation before network (claim C8)

Each model takes the network as an oracle
`net : Req → Except String String` (the whole `getRequest` /
`postRequest` / `deleteRequest` chain for one URL), records the
requests it issues, and abstracts `json` encoding and decoding as
total/partial oracles.  The validation checks and their order are
taken verbatim from the source. -/

/-- A request as issued by an accessor: method, URL and body. -/
structure Req where
  method : String
  url : String
  reqBody : String
  deriving DecidableEq

def RoomsURL : String := "https://api.ciscospark.com/v1/rooms"
def WebhooksURL : String := "https://api.ciscospark.com/v1/webhooks"
def PeopleURL : String := "https://api.ciscospark.com/v1/people"
def MessagesURL : String := "https://api.ciscospark.com/v1/messages"

/-- The required-and-optional fields of `NewWebhook`; the `nil` pointer
case is `Option.none` at the call site. -/
structure NewWebhook where
  name : String
  targetURL : String
  resource : String
  event : String
  filter : String
  secret : String
  deriving DecidableEq

/-- The fields of `NewMessage` relevant to validation. -/
structure NewMessage where
  roomID : String
  toPersonID : String
  toPersonEmail : String
  text : String
  markdown : String
  deriving DecidableEq

/-- Embeds `GetRoom` (`room.go` lines 30-42). -/
def GetRoom (net : Req → Except String String)
    (decode : String → Except String α) (roomId : String) :
    Except String α × List Req :=
  if roomId = "" then (.error "no room ID specified", [])
  else
    let req : Req := ⟨"GET", RoomsURL ++ "/" ++ roomId, ""⟩
    match net req with
    | .error e => (.error e, [req])
    | .ok resp => (decode resp, [req])

/-- Embeds `CreateRoom` (`room.go` lines 66-89). -/
def CreateRoom (net : Req → Except String String)
    (decode : String → Except String α)
    (encode : String → String → String) (name teamID : String) :
    Except String α × List Req :=
  if name = "" then (.error "no room name specified", [])
  else
    let req : Req := ⟨"POST", RoomsURL, encode name teamID⟩
    match net req with
    | .error e => (.error e, [req])
    | .ok resp => (decode resp, [req])

/-- Embeds `CreateWebhook` (webhook file lines 60-90): the five checks
in source order, then one POST. -/
def CreateWebhook (net : Req → Except String String)
    (decode : String → Except String α)
    (encode : NewWebhook → String) (w : Option NewWebhook) :
    Except String α × List Req :=
  match w with
  | none => (.error "nil webhook", [])
  | some w =>
    if w.name = "" then (.error "no webhook name specified", [])
    else if w.targetURL = "" then
      (.error "no webhook target URL specified", [])
    else if w.resource = "" then
      (.error "no webhook resource specified", [])
    else if w.event = "" then (.error "no webhook event specified", [])
    else
      let req : Req := ⟨"POST", WebhooksURL, encode w⟩
      match net req with
      | .error e => (.error e, [req])
      | .ok resp => (decode resp, [req])

/-- Embeds `CreateMessage` (message file lines 57-77). -/
def CreateMessage (net : Req → Except String String)
    (decode : String → Except String α)
    (encode : NewMessage → String) (m : Option NewMessage) :
    Except String α × List Req :=
  match m with
  | none => (.error "nil message", [])
  | some m =>
    if m.roomID = "" ∧ m.toPersonEmail = "" ∧ m.toPersonID = "" then
      (.error "message requires a room ID, person ID, or email to send to", [])
    else
      let req : Req := ⟨"POST", MessagesURL, encode m⟩
      match net req with
      | .error e => (.error e, [req])
      | .ok resp => (decode resp, [req])

/-- Embeds `DeletePerson` (people file lines 108-115). -/
def DeletePerson (net : Req → Except String String) (ID : String) :
    Except String Unit × List Req :=
  if ID = "" then (.error "no person ID specified", [])
  else
    let req : Req := ⟨"DELETE", PeopleURL ++ "/" ++ ID, ""⟩
    match net req with
    | .error e => (.error e, [req])
    | .ok _ => (.ok (), [req])

/-! ## Loop lemmas for the paging engine -/

/-- When the loop guard `all || max > 0` is false the loop body never
runs: the accumulated pages are returned with no error. -/
theorem pagingAux_exit (oracle : Nat → RoundTrip) (pageMax : Int)
    (all : Bool) (fuel n : Nat) (max : Int) (acc : List String)
    (h : ¬(all = true ∨ max > 0)) :
    pagingAux oracle pageMax all fuel n max acc = .ok acc n := by
  cases fuel <;> simp only [pagingAux, if_neg h]

/-- Advancing the loop through `j` successful round trips, each with an
acceptable status and a recognized continuation link: the budget drops
by `j * pageMax` and the `j` page bodies are appended in order. -/
theorem pagingAux_advance (oracle : Nat → RoundTrip) (pageMax : Int)
    (all : Bool) (resp : Nat → PageResponse) :
    ∀ (j n : Nat) (max : Int) (acc : List String) (fuel : Nat),
      (∀ i, i < j → oracle (n + i) = .transport (.response (resp (n + i)))) →
      (∀ i, i < j → (resp (n + i)).status = 200 ∨ (resp (n + i)).status = 204) →
      (∀ i, i < j → ∃ u, scanLink (resp (n + i)).links = .found u) →
      (∀ i, i < j → (all = true ∨ 0 < max - (i : Int) * pageMax)) →
      pagingAux oracle pageMax all (j + fuel) n max acc =
        pagingAux oracle pageMax all fuel (n + j) (max - (j : Int) * pageMax)
          (acc ++ (List.range j).map (fun i => (resp (n + i)).body)) := by
  intro j
  induction j with
  | zero =>
      intro n max acc fuel _ _ _ _
      simp
  | succ j ih =>
      intro n max acc fuel hok hst hnx hbud
      have hcond : all = true ∨ max > 0 := by
        have h := hbud 0 (Nat.succ_pos j)
        simpa using h
      have hok0 := hok 0 (Nat.succ_pos j)
      have hst0 := hst 0 (Nat.succ_pos j)
      obtain ⟨u, hu⟩ := hnx 0 (Nat.succ_pos j)
      simp only [Nat.add_zero] at hok0 hst0 hu
      have hstatus : ¬((resp n).status ≠ 200 ∧ (resp n).status ≠ 204) := by
        rcases hst0 with h | h <;> simp [h]
      have hstep :
          pagingAux oracle pageMax all (j + 1 + fuel) n max acc =
            pagingAux oracle pageMax all (j + fuel) (n + 1) (max - pageMax)
              (acc ++ [(resp n).body]) := by
        rw [show j + 1 + fuel = (j + fuel) + 1 from by omega]
        simp only [pagingAux, if_pos hcond, hok0]
        rw [if_neg hstatus, hu]
      rw [hstep]
      rw [ih (n + 1) (max - pageMax) (acc ++ [(resp n).body]) fuel
        (fun i hi => by
          have h := hok (i + 1) (by omega)
          rwa [show n + (i + 1) = n + 1 + i from by omega] at h)
        (fun i hi => by
          have h := hst (i + 1) (by omega)
          rwa [show n + (i + 1) = n + 1 + i from by omega] at h)
        (fun i hi => by
          have h := hnx (i + 1) (by omega)
          rwa [show n + (i + 1) = n + 1 + i from by omega] at h)
        (fun i hi => by
          have h := hbud (i + 1) (by omega)
          rcases h with h | h
          · exact Or.inl h
          · right
            push_cast at h
            have e : max - pageMax - (i : Int) * pageMax
                = max - ((i : Int) + 1) * pageMax := by ring
            rw [e]
            exact h)]
      have e1 : n + 1 + j = n + (j + 1) := by omega
      have e2 : max - pageMax - (j : Int) * pageMax
          = max - ((j + 1 : Nat) : Int) * pageMax := by push_cast; ring
      have e3 : (fun i => (resp (n + 1 + i)).body)
          = (fun i => (resp (n + (i + 1))).body) := by
        funext i
        rw [show n + 1 + i = n + (i + 1) from by omega]
      rw [e1, e2, e3]
      congr 1
      rw [List.range_succ_eq_map]
      simp [List.map_map, Function.comp_def, List.append_assoc]

/-- A round trip whose response has an unacceptable status returns the
accumulated pages with a status error carrying `res.Status`. -/
theorem pagingAux_fail_status (oracle : Nat → RoundTrip) (pageMax : Int)
    (all : Bool) (fuel n : Nat) (max : Int) (acc : List String)
    (r : PageResponse) (hcond : all = true ∨ max > 0)
    (ho : oracle n = .transport (.response r))
    (h200 : r.status ≠ 200) (h204 : r.status ≠ 204) :
    pagingAux oracle pageMax all (fuel + 1) n max acc
      = .fail acc (n + 1) (.statusErr r.status r.statusText) := by
  simp only [pagingAux, if_pos hcond, ho]
  rw [if_pos ⟨h200, h204⟩]

/-- C1: for a bounded paginated fetch with caller max `m > 0` and page
ceiling `c > 0`, if every response up to the budget's exhaustion has an
acceptable status and carries a recognized `rel="next"` continuation
link, `getRequestWithPaging` performs exactly `⌈m / c⌉ = (m + c - 1) / c`
round trips — independent of the page bodies, because the budget is
decremented by the ceiling `c` after every round trip rather than by
any item count — and returns one page per round trip with no error. -/
theorem claim1_bounded_fetch_roundtrips (oracle : Nat → RoundTrip)
    (resp : Nat → PageResponse) (m c : Nat) (hm : 0 < m) (hc : 0 < c)
    (hok : ∀ i, i < (m + c - 1) / c →
      oracle i = .transport (.response (resp i)))
    (hst : ∀ i, i < (m + c - 1) / c →
      (resp i).status = 200 ∨ (resp i).status = 204)
    (hnx : ∀ i, i < (m + c - 1) / c →
      ∃ u, scanLink (resp i).links = .found u)
    (fuel : Nat) :
    getRequestWithPaging oracle (c : Int) (m : Int) ((m + c - 1) / c + fuel)
      = .ok ((List.range ((m + c - 1) / c)).map (fun i => (resp i).body))
          ((m + c - 1) / c) := by
  set K := (m + c - 1) / c with hK
  have hdm : c * K + (m + c - 1) % c = m + c - 1 := Nat.div_add_mod _ _
  have hmod : (m + c - 1) % c < c := Nat.mod_lt _ hc
  have hbudN : ∀ i, i < K → i * c < m := by
    intro i hi
    have h1 : c * (i + 1) ≤ c * K := Nat.mul_le_mul_left c hi
    have h2 : c * (i + 1) = c * i + c := Nat.mul_succ c i
    rw [h2] at h1
    have key : ∀ t s r : Nat, s + c ≤ t → t + r = m + c - 1 → r < c →
        s < m := by
      intro t s r a b d
      omega
    rw [Nat.mul_comm]
    exact key (c * K) (c * i) _ h1 hdm hmod
  have hend : m ≤ c * K := by
    have key : ∀ t r : Nat, t + r = m + c - 1 → r < c → m ≤ t := by
      intro t r a b
      omega
    exact key (c * K) _ hdm hmod
  unfold getRequestWithPaging
  have hall : ((m : Int) == 0) = false := by
    simp only [beq_eq_false_iff_ne, ne_eq, Int.natCast_eq_zero]
    omega
  rw [hall]
  rw [pagingAux_advance oracle (c : Int) false resp K 0 (m : Int) [] fuel
    (fun i hi => by simpa using hok i hi)
    (fun i hi => by simpa using hst i hi)
    (fun i hi => by simpa using hnx i hi)
    (fun i hi => by
      right
      have h := hbudN i hi
      have h2 : ((i * c : Nat) : Int) < (m : Int) := by exact_mod_cast h
      push_cast at h2
      linarith)]
  rw [pagingAux_exit _ _ _ _ _ _ _ (by
    simp only [gt_iff_lt, not_or, Bool.false_eq_true, not_false_iff,
      true_and, not_lt]
    have h2 : (m : Int) ≤ ((c * K : Nat) : Int) := by exact_mod_cast hend
    push_cast at h2
    linarith)]
  simp

/-- C2: for an unbounded paginated fetch (caller max 0), if the first
`k` responses are acceptable and each is recognized as carrying a
`rel="next"` continuation link, and response `k` is the first whose
link scan finds none, the loop performs exactly `k + 1` round trips,
stops at that response, and returns exactly one page payload per round
trip, in order. -/
theorem claim2_unbounded_follows_next (oracle : Nat → RoundTrip)
    (resp : Nat → PageResponse) (k : Nat) (pageMax : Int)
    (hok : ∀ i, i ≤ k → oracle i = .transport (.response (resp i)))
    (hst : ∀ i, i ≤ k → (resp i).status = 200 ∨ (resp i).status = 204)
    (hnx : ∀ i, i < k → ∃ u, scanLink (resp i).links = .found u)
    (hstop : scanLink (resp k).links = .notFound)
    (fuel : Nat) :
    getRequestWithPaging oracle pageMax 0 (k + 1 + fuel)
      = .ok ((List.range (k + 1)).map (fun i => (resp i).body)) (k + 1) := by
  unfold getRequestWithPaging
  have hall : ((0 : Int) == 0) = true := by decide
  rw [hall]
  rw [show k + 1 + fuel = k + (fuel + 1) from by omega]
  rw [pagingAux_advance oracle pageMax true resp k 0 0 [] (fuel + 1)
    (fun i hi => by simpa using hok i (Nat.le_of_lt hi))
    (fun i hi => by simpa using hst i (Nat.le_of_lt hi))
    (fun i hi => by simpa using hnx i hi)
    (fun _ _ => Or.inl rfl)]
  have hokk := hok k (Nat.le_refl k)
  have hstk := hst k (Nat.le_refl k)
  have hstatus : ¬((resp k).status ≠ 200 ∧ (resp k).status ≠ 204) := by
    rcases hstk with h | h <;> simp [h]
  simp only [Nat.zero_add, pagingAux, if_pos (Or.inl rfl : true = true ∨
    (0 : Int) - (k : Int) * pageMax > 0), hokk]
  rw [if_neg hstatus, hstop]
  rw [List.range_succ]
  simp

/-- C3: on each iteration of the paging loop, the `"max"` query
parameter is force-set — independent of whatever values the current
URL (e.g. a continuation link) carried for it — to the ceiling when
unbounded or when remaining exceeds the ceiling, and to remaining
otherwise; every other key keeps the URL's values and appends the
caller-supplied ones. -/
theorem claim3_force_set_max_merge_rest (urlParams uv : Params)
    (all : Bool) (max pageMax : Int) :
    buildParams urlParams uv all max pageMax "max"
      = [if all = true ∨ max > pageMax then toString pageMax
         else toString max]
    ∧ ∀ k, k ≠ "max" →
      buildParams urlParams uv all max pageMax k = urlParams k ++ uv k := by
  constructor
  · simp [buildParams, setMax]
  · intro k hk
    simp [buildParams, setMax, addValues, hk]

/-- Witness for C3 at concrete inputs: the ceiling is forced even
though the URL already carried `max=999`, and the key `"after"` merges
additively. -/
theorem claim3_witness :
    buildParams (fun _ => ["999"]) (fun _ => ["z"]) true 0 50 "max"
      = ["50"]
    ∧ buildParams (fun _ => ["999"]) (fun _ => ["z"]) true 0 50 "after"
      = ["999", "z"] := by
  have h := claim3_force_set_max_merge_rest
    (fun _ => ["999"]) (fun _ => ["z"]) true 0 50
  refine ⟨?_, h.2 "after" (by decide)⟩
  rw [h.1]
  decide

/-- C4: a paginated fetch whose first `k - 1` round trips succeed with
continuation links and whose `k`-th round trip fails — request
construction, transport, body read, or an unacceptable status — stops
after the `k`-th round trip and returns exactly the `k - 1` pages
already accumulated, in order, together with an error.  With `k = 1`
the returned collection is empty. -/
theorem claim4_partial_failure (oracle : Nat → RoundTrip)
    (resp : Nat → PageResponse) (k : Nat) (hk : 0 < k)
    (pageMax max : Int)
    (hok : ∀ i, i < k - 1 → oracle i = .transport (.response (resp i)))
    (hst : ∀ i, i < k - 1 →
      (resp i).status = 200 ∨ (resp i).status = 204)
    (hnx : ∀ i, i < k - 1 → ∃ u, scanLink (resp i).links = .found u)
    (hbud : max = 0 ∨ ∀ i, i < k → 0 < max - (i : Int) * pageMax)
    (hfail :
      (∃ e, oracle (k - 1) = .buildFail e) ∨
      (∃ e, oracle (k - 1) = .transport (.doFail e)) ∨
      (∃ e, oracle (k - 1) = .transport (.readFail e)) ∨
      (∃ r, oracle (k - 1) = .transport (.response r) ∧
        r.status ≠ 200 ∧ r.status ≠ 204))
    (fuel : Nat) :
    ∃ e, getRequestWithPaging oracle pageMax max ((k - 1) + (fuel + 1))
      = .fail ((List.range (k - 1)).map (fun i => (resp i).body)) k e := by
  unfold getRequestWithPaging
  have hcond : ∀ i, i < k →
      ((max == 0) = true ∨ 0 < max - (i : Int) * pageMax) := by
    rcases hbud with h | h
    · intro i _
      exact Or.inl (by rw [h]; decide)
    · intro i hi
      exact Or.inr (h i hi)
  rw [pagingAux_advance oracle pageMax (max == 0) resp (k - 1) 0 max []
    (fuel + 1)
    (fun i hi => by simpa using hok i hi)
    (fun i hi => by simpa using hst i hi)
    (fun i hi => by simpa using hnx i hi)
    (fun i hi => hcond i (by omega))]
  have hcondk := hcond (k - 1) (by omega)
  simp only [Nat.zero_add, List.nil_append]
  rcases hfail with ⟨e, he⟩ | ⟨e, he⟩ | ⟨e, he⟩ | ⟨r, he, h200, h204⟩
  · exact ⟨.buildErr e, by
      simp only [pagingAux, if_pos hcondk, he]
      rw [show k - 1 + 1 = k from by omega]⟩
  · exact ⟨.doErr e, by
      simp only [pagingAux, if_pos hcondk, he]
      rw [show k - 1 + 1 = k from by omega]⟩
  · exact ⟨.readErr e, by
      simp only [pagingAux, if_pos hcondk, he]
      rw [show k - 1 + 1 = k from by omega]⟩
  · exact ⟨.statusErr r.status r.statusText, by
      simp only [pagingAux, if_pos hcondk, he]
      rw [if_pos ⟨h200, h204⟩, show k - 1 + 1 = k from by omega]⟩

/-- Witness for C1: max 5 with ceiling 2 gives ⌈5/2⌉ = 3 round trips
even though the server keeps offering more pages. -/
theorem claim1_witness :
    getRequestWithPaging
      (fun _ => .transport (.response ⟨200, "200 OK", "p", ["<u>; rel=\"next\""]⟩))
      2 5 3
      = .ok ["p", "p", "p"] 3 :=
  claim1_bounded_fetch_roundtrips
    (fun _ => .transport (.response ⟨200, "200 OK", "p", ["<u>; rel=\"next\""]⟩))
    (fun _ => ⟨200, "200 OK", "p", ["<u>; rel=\"next\""]⟩)
    5 2 (by decide) (by decide)
    (fun _ _ => rfl)
    (fun _ _ => Or.inl rfl)
    (fun _ _ => ⟨"u", rfl⟩)
    0

/-- Witness for C2: one response with a next link followed by one
without gives exactly 2 round trips and 2 pages. -/
theorem claim2_witness :
    getRequestWithPaging
      (fun n => if n = 0
        then .transport (.response ⟨200, "200 OK", "a", ["<u>; rel=\"next\""]⟩)
        else .transport (.response ⟨200, "200 OK", "b", []⟩))
      50 0 2
      = .ok ["a", "b"] 2 :=
  claim2_unbounded_follows_next
    (fun n => if n = 0
      then .transport (.response ⟨200, "200 OK", "a", ["<u>; rel=\"next\""]⟩)
      else .transport (.response ⟨200, "200 OK", "b", []⟩))
    (fun n => if n = 0
      then ⟨200, "200 OK", "a", ["<u>; rel=\"next\""]⟩
      else ⟨200, "200 OK", "b", []⟩)
    1 50
    (fun i hi => by
      have h : i = 0 ∨ i = 1 := by omega
      rcases h with h | h <;> subst h <;> rfl)
    (fun i hi => by
      have h : i = 0 ∨ i = 1 := by omega
      rcases h with h | h <;> subst h <;> exact Or.inl rfl)
    (fun i hi => by
      have h0 : i = 0 := by omega
      subst h0
      exact ⟨"u", by decide⟩)
    (by decide)
    0

/-- Witness for C4, replaying the spec's partial-failure scenario:
pages 1 and 2 succeed, page 3's transport call fails; the fetch makes 3
calls and returns pages 1-2 with an error. -/
theorem claim4_witness :
    ∃ e, getRequestWithPaging
        (fun n => if n < 2
          then .transport (.response ⟨200, "200 OK", "page", ["<u>; rel=\"next\""]⟩)
          else .transport (.doFail "mock error"))
        50 0 3
      = .fail ["page", "page"] 3 e :=
  claim4_partial_failure
    (fun n => if n < 2
      then .transport (.response ⟨200, "200 OK", "page", ["<u>; rel=\"next\""]⟩)
      else .transport (.doFail "mock error"))
    (fun _ => ⟨200, "200 OK", "page", ["<u>; rel=\"next\""]⟩)
    3 (by decide) 50 0
    (fun i hi => by
      have h2 : i < 2 := hi
      simp [h2])
    (fun _ _ => Or.inl rfl)
    (fun _ _ => ⟨"u", rfl⟩)
    (Or.inl rfl)
    (Or.inr (Or.inl ⟨"mock error", by decide⟩))
    0

/-- C5 counterexample: on a 500 response with body `"boom"`, the
single-request path's error captures the body, but the paginated
path's error captures `res.Status` (the status line text) instead of
the body — the two paths do not have identical status handling, so the
claim as stated fails on this input. -/
theorem claim5_counterexample :
    getRequestWithPaging
      (fun _ => .transport (.response
        ⟨500, "500 Internal Server Error", "boom", []⟩)) 50 0 1
      = .fail [] 1 (.statusErr 500 "500 Internal Server Error")
    ∧ request (.response ⟨500, "500 Internal Server Error", "boom", []⟩)
      = .error (.statusErr 500 "boom")
    ∧ ("500 Internal Server Error" : String) ≠ "boom" := by
  refine ⟨by decide, rfl, by decide⟩

/-- C5 amended: any response with a status other than 200 and 204
fails the call in both paths, with an error capturing the numeric
status code; the single-request path additionally captures the raw
body text, while the paginated path captures the response's status
line text (`res.Status`) instead of the body. -/
theorem claim5_amended_status_errors (r : PageResponse)
    (h200 : r.status ≠ 200) (h204 : r.status ≠ 204)
    (oracle : Nat → RoundTrip)
    (ho : oracle 0 = .transport (.response r))
    (pageMax : Int) (fuel : Nat) :
    request (.response r) = .error (.statusErr r.status r.body)
    ∧ getRequestWithPaging oracle pageMax 0 (fuel + 1)
      = .fail [] 1 (.statusErr r.status r.statusText) := by
  constructor
  · simp only [request, if_pos (And.intro h200 h204)]
  · unfold getRequestWithPaging
    rw [pagingAux_fail_status _ _ _ fuel 0 _ [] r
      (Or.inl (by decide)) ho h200 h204]

/-- Witness for the amended C5 at the spec's concrete scenario. -/
theorem claim5_witness :
    request (.response ⟨500, "500 Internal Server Error", "boom", []⟩)
      = .error (.statusErr 500 "boom")
    ∧ getRequestWithPaging
        (fun _ => .transport (.response
          ⟨500, "500 Internal Server Error", "boom", []⟩)) 50 0 1
      = .fail [] 1 (.statusErr 500 "500 Internal Server Error") :=
  claim5_amended_status_errors
    ⟨500, "500 Internal Server Error", "boom", []⟩
    (by decide) (by decide)
    (fun _ => .transport (.response
      ⟨500, "500 Internal Server Error", "boom", []⟩))
    rfl 50 0

/-- C6 (code evaluation at the failing input): page 1 succeeds and
decodes, page 2's transport call fails, so the paging layer hands every
accessor the pair `(["good"], doErr)`.  `ListWebhooks` then returns the
decoded items together with the error, as the spec states for all four
accessors — but `ListRooms` and `ListPeople` return the items with a
`nil` error (the request error is dropped at their final return), and
`ListMessages` returns the error having dropped the decoded items. -/
theorem claim6_partial_error_mishandled :
    getRequestWithPaging
      (fun n => if n = 0
        then .transport (.response ⟨200, "200 OK", "good", ["<u>; rel=\"next\""]⟩)
        else .transport (.doFail "mock error"))
      50 0 3
      = .fail ["good"] 2 (.doErr "mock error")
    ∧ ListWebhooks ["good"] (some (.doErr "mock error"))
        (fun s => if s = "good"
          then (.ok [1, 2] : Except String (List Nat))
          else .error "invalid json")
      = ([1, 2], some (.fetch (.doErr "mock error")))
    ∧ ListRooms ["good"] (some (.doErr "mock error"))
        (fun s => if s = "good"
          then (.ok [1, 2] : Except String (List Nat))
          else .error "invalid json")
      = ([1, 2], none)
    ∧ ListPeople ["good"] (some (.doErr "mock error"))
        (fun s => if s = "good"
          then (.ok [1, 2] : Except String (List Nat))
          else .error "invalid json")
      = ([1, 2], none)
    ∧ ListMessages "room1" ["good"] (some (.doErr "mock error"))
        (fun s => if s = "good"
          then (.ok [1, 2] : Except String (List Nat))
          else .error "invalid json")
      = ([], some (.combined (some (.doErr "mock error")) none)) := by
  refine ⟨by decide, by decide, by decide, by decide, by decide⟩

/-- C7 (code evaluation at the failing input): the request succeeded
(`reqErr = nil`) but the single returned page fails to decode.
`ListRooms`, `ListWebhooks` and `ListPeople` surface the decode
failure in a combined error, as the claim states — but `ListMessages`
returns a `nil` error (its loop tests `reqErr != nil` where its
siblings test `jsonErr != nil`), so the decode failure is invisible to
the caller. -/
theorem claim7_decode_error_dropped :
    ListMessages "room1" ["bad"] none
        (fun s => if s = "good"
          then (.ok [1, 2] : Except String (List Nat))
          else .error "invalid json")
      = ([], none)
    ∧ ListRooms ["bad"] none
        (fun s => if s = "good"
          then (.ok [1, 2] : Except String (List Nat))
          else .error "invalid json")
      = ([], some (.combined none (some "invalid json")))
    ∧ ListWebhooks ["bad"] none
        (fun s => if s = "good"
          then (.ok [1, 2] : Except String (List Nat))
          else .error "invalid json")
      = ([], some (.combined none (some "invalid json")))
    ∧ ListPeople ["bad"] none
        (fun s => if s = "good"
          then (.ok [1, 2] : Except String (List Nat))
          else .error "invalid json")
      = ([], some (.combined none (some "invalid json"))) := by
  refine ⟨by decide, by decide, by decide, by decide⟩

/-- C8: every accessor with required inputs checks them before any
network call: a missing or empty required field yields the
field-specific error and an empty list of issued requests, for any
network, decoder, or encoder oracle. -/
theorem claim8_validation_before_network :
    (∀ (net : Req → Except String String)
       (dec : String → Except String Unit),
      GetRoom net dec "" = (.error "no room ID specified", []))
    ∧ (∀ (net : Req → Except String String)
         (dec : String → Except String Unit)
         (enc : String → String → String) (teamID : String),
        CreateRoom net dec enc "" teamID
          = (.error "no room name specified", []))
    ∧ (∀ (net : Req → Except String String)
         (dec : String → Except String Unit) (enc : NewWebhook → String),
        CreateWebhook net dec enc none = (.error "nil webhook", []))
    ∧ (∀ (net : Req → Except String String)
         (dec : String → Except String Unit) (enc : NewWebhook → String)
         (w : NewWebhook), w.name = "" →
        CreateWebhook net dec enc (some w)
          = (.error "no webhook name specified", []))
    ∧ (∀ (net : Req → Except String String)
         (dec : String → Except String Unit) (enc : NewWebhook → String)
         (w : NewWebhook), w.name ≠ "" → w.targetURL = "" →
        CreateWebhook net dec enc (some w)
          = (.error "no webhook target URL specified", []))
    ∧ (∀ (net : Req → Except String String)
         (dec : String → Except String Unit) (enc : NewWebhook → String)
         (w : NewWebhook), w.name ≠ "" → w.targetURL ≠ "" →
        w.resource = "" →
        CreateWebhook net dec enc (some w)
          = (.error "no webhook resource specified", []))
    ∧ (∀ (net : Req → Except String String)
         (dec : String → Except String Unit) (enc : NewWebhook → String)
         (w : NewWebhook), w.name ≠ "" → w.targetURL ≠ "" →
        w.resource ≠ "" → w.event = "" →
        CreateWebhook net dec enc (some w)
          = (.error "no webhook event specified", []))
    ∧ (∀ (net : Req → Except String String)
         (dec : String → Except String Unit) (enc : NewMessage → String),
        CreateMessage net dec enc none = (.error "nil message", []))
    ∧ (∀ (net : Req → Except String String)
         (dec : String → Except String Unit) (enc : NewMessage → String)
         (m : NewMessage), m.roomID = "" → m.toPersonEmail = "" →
        m.toPersonID = "" →
        CreateMessage net dec enc (some m)
          = (.error "message requires a room ID, person ID, or email to send to", []))
    ∧ (∀ (net : Req → Except String String),
        DeletePerson net "" = (.error "no person ID specified", [])) := by
  refine ⟨?_, ?_, ?_, ?_, ?_, ?_, ?_, ?_, ?_, ?_⟩
  · intro net dec
    simp [GetRoom]
  · intro net dec enc teamID
    simp [CreateRoom]
  · intro net dec enc
    simp [CreateWebhook]
  · intro net dec enc w h
    simp [CreateWebhook, h]
  · intro net dec enc w h1 h2
    simp [CreateWebhook, h1, h2]
  · intro net dec enc w h1 h2 h3
    simp [CreateWebhook, h1, h2, h3]
  · intro net dec enc w h1 h2 h3 h4
    simp [CreateWebhook, h1, h2, h3, h4]
  · intro net dec enc
    simp [CreateMessage]
  · intro net dec enc m h1 h2 h3
    simp [CreateMessage, h1, h2, h3]
  · intro net
    simp [DeletePerson]

/-- Witness for C8 at concrete inputs: an empty room ID and a webhook
with a name but no target URL each fail with the field's error and
issue no request. -/
theorem claim8_witness :
    GetRoom (fun _ => .error "net down")
        (fun _ => (.ok () : Except String Unit)) ""
      = (.error "no room ID specified", [])
    ∧ CreateWebhook (fun _ => .error "net down")
        (fun _ => (.ok () : Except String Unit)) (fun _ => "{}")
        (some ⟨"hook", "", "messages", "created", "", ""⟩)
      = (.error "no webhook target URL specified", []) :=
  ⟨claim8_validation_before_network.1
      (fun _ => .error "net down") (fun _ => (.ok () : Except String Unit)),
   claim8_validation_before_network.2.2.2.2.1
      (fun _ => .error "net down") (fun _ => (.ok () : Except String Unit))
      (fun _ => "{}") ⟨"hook", "", "messages", "created", "", ""⟩
      (by decide) rfl⟩

/-- C9: `New` builds a client with the given token and the fixed
default page ceiling 50; `SetMaxPerPage` builds a fresh configuration
value with the given max and the original's token, determined solely
by those two — the receiver is a read-only input of the pure function,
so the original configuration is unchanged by the call. -/
theorem claim9_client_config (c : client) (max : Int) (t : String) :
    (New t).token = t
    ∧ (New t).pageMax = 50
    ∧ (SetMaxPerPage c max).token = c.token
    ∧ (SetMaxPerPage c max).pageMax = max
    ∧ SetMaxPerPage c max = { token := c.token, pageMax := max } :=
  ⟨rfl, rfl, rfl, rfl, rfl⟩

/-- C10: a 200 response whose first `Link` entry lacks the separator
`"; "` — e.g. exactly `rel="next"`, or `<u>;rel="next"` without the
space — makes the split yield fewer than two parts, and the scan's
unguarded `spl[1]` access panics, aborting the fetch; an entry of the
exact shape `<url>; rel="next"` is scanned successfully. -/
theorem claim10_link_scan_panics :
    scanLink ["rel=\"next\""] = .panic
    ∧ scanLink ["<u>;rel=\"next\""] = .panic
    ∧ getRequestWithPaging
        (fun _ => .transport (.response
          ⟨200, "200 OK", "body", ["rel=\"next\""]⟩)) 50 0 5
      = .panicked 1
    ∧ scanLink ["<u>; rel=\"next\""] = .found "u" := by
  refine ⟨by decide, by decide, by decide, by decide⟩

end Spark
